import Mathlib

/-!
vmkite — verification of the core against its specification

Shallow embedding of the two source modules of the repository:

* `buildkite` — the Job Source and Metadata Codec (`parseAgentQueryRules`,
  `VmkiteJobs`, `IsFinished`).
* `vsphere` — the Session Manager, VM Spec Builder and Provisioning
  Orchestrator (`getFinder`, `vmFolder`, `addEthernet`, `addSCSI`, `addDisk`,
  `addUSB`, `createConfigSpec`, `CreateVM`, the keepalive probe callback and
  `isNotAuthenticated`).

Strings are modelled as `List Char` so that the codec behaviour of
splitting at the first `=` is directly provable.  External collaborators (the Buildkite HTTP
API and the vSphere control plane) are modelled as explicit inputs: the list
of builds an API call returned, and a `Topology` record of `Option`-valued
lookups whose `none` results stand for lookup errors.
-/

/-- Strings, modelled as lists of characters. -/
abbrev Str : Type := List Char

/-- Conversion from Lean string literals to the `Str` model. -/
def str (s : String) : Str := s.toList

namespace buildkite

/-- Decoded provisioning intent carried by the agent query rules of a job
(`VmkiteMetadata` in the source). -/
structure VmkiteMetadata where
  VMDK : Str
  GuestID : Str
deriving DecidableEq, Repr

/-- The zero value of `VmkiteMetadata`, both fields empty. -/
def VmkiteMetadata.empty : VmkiteMetadata := { VMDK := [], GuestID := [] }

/-- One job of a Buildkite build as consumed by the source: its ID, its
state string, and its agent query rules. -/
structure BuildJob where
  id : Str
  state : Str
  agentQueryRules : List Str
deriving DecidableEq, Repr

/-- One Buildkite build as consumed by the source: number, pipeline slug
and jobs. -/
structure Build where
  number : Nat
  pipelineSlug : Str
  jobs : List BuildJob
deriving DecidableEq, Repr

/-- A schedulable vmkite job (`VmkiteJob` in the source). -/
structure VmkiteJob where
  ID : Str
  BuildNumber : Str
  Pipeline : Str
  Metadata : VmkiteMetadata
deriving DecidableEq, Repr

/-- The Go function `strconv.Itoa` on a natural build number. -/
def itoa (n : Nat) : Str := (toString n).toList

/-- The Go call `strings.SplitN(r, "=", 2)`: `some (key, value)` when `r` contains
an `=`, splitting at the first one; `none` when it does not (the length-1
result of `SplitN`). -/
def splitEq : Str → Option (Str × Str)
  | [] => none
  | c :: cs =>
    if c = '=' then some ([], cs)
    else (splitEq cs).map (fun p => (c :: p.1, p.2))

/-- The recognized key for the desired disk image. -/
def vmdkKey : Str := str "vmkite-vmdk"

/-- The recognized key for the desired guest identity. -/
def guestidKey : Str := str "vmkite-guestid"

/-- One iteration of the loop body of `parseAgentQueryRules`: split the rule
at the first `=` and, on a recognized key, overwrite the corresponding
metadata field. -/
def parseRule (metadata : VmkiteMetadata) (r : Str) : VmkiteMetadata :=
  match splitEq r with
  | some (k, v) =>
    if k = vmdkKey then { metadata with VMDK := v }
    else if k = guestidKey then { metadata with GuestID := v }
    else metadata
  | none => metadata

/-- Model of `parseAgentQueryRules` from the source: fold the loop body over the rules,
starting from the zero metadata value. -/
def parseAgentQueryRules (rules : List Str) : VmkiteMetadata :=
  rules.foldl parseRule VmkiteMetadata.empty

/-- The success path of `Session.VmkiteJobs()`, applied to the list of builds
the Buildkite API returned for states `{scheduled, running}`: flatten builds
to jobs, decode the rules of each job, and keep a job only when both decoded
fields are non-empty. -/
def VmkiteJobs (builds : List Build) : List VmkiteJob :=
  builds.flatMap (fun build =>
    build.jobs.filterMap (fun job =>
      let metadata := parseAgentQueryRules job.agentQueryRules
      if metadata.GuestID ≠ [] ∧ metadata.VMDK ≠ [] then
        some { ID := job.id
               BuildNumber := itoa build.number
               Pipeline := build.pipelineSlug
               Metadata := metadata }
      else none))

/-- Error from the Buildkite API (`Builds.Get` failing). -/
inductive BkErr where
  | apiError
deriving DecidableEq, Repr

/-- Model of `Session.IsFinished`, applied to the outcome of re-fetching the build
of the job: on fetch failure the error propagates; otherwise scan the jobs
of that build for the first one with a matching ID — `false` when its state is
`scheduled` or `running`, `true` for any other state, and `false` when no
job matches. -/
def IsFinished (fetched : Option Build) (job : VmkiteJob) : Except BkErr Bool :=
  match fetched with
  | none => .error .apiError
  | some build =>
    .ok (match build.jobs.find? (fun bj => bj.id == job.ID) with
         | some bj =>
           if bj.state = str "scheduled" ∨ bj.state = str "running" then false
           else true
         | none => false)

/-- The value of the first rule in the sequence whose key matches, stated
from the words of the spec (used to compare against the codec behaviour). -/
def firstMatch (key : Str) : List Str → Option Str
  | [] => none
  | r :: rest =>
    match splitEq r with
    | some (k, v) => if k = key then some v else firstMatch key rest
    | none => firstMatch key rest

/-- The value of the last rule in the sequence whose key matches. -/
def lastMatch (key : Str) : List Str → Option Str
  | [] => none
  | r :: rest =>
    match lastMatch key rest with
    | some v => some v
    | none =>
      match splitEq r with
      | some (k, v) => if k = key then some v else none
      | none => none

/-- A concrete build list whose single job carries complete intent. -/
def builds1 : List Build :=
  [{ number := 1
     pipelineSlug := str "pipe"
     jobs := [{ id := str "jid"
                state := str "scheduled"
                agentQueryRules := [str "vmkite-vmdk=/a.vmdk", str "vmkite-guestid=g"] }] }]

/-- The job that `VmkiteJobs builds1` yields. -/
def job1 : VmkiteJob :=
  { ID := str "jid"
    BuildNumber := itoa 1
    Pipeline := str "pipe"
    Metadata := { VMDK := str "/a.vmdk", GuestID := str "g" } }

/-- A concrete re-fetched build with one job in state `passed`. -/
def build2 : Build :=
  { number := 2
    pipelineSlug := str "p"
    jobs := [{ id := str "j1", state := str "passed", agentQueryRules := [] }] }

/-- A job whose ID matches the single job of `build2`. -/
def job2 : VmkiteJob :=
  { ID := str "j1"
    BuildNumber := itoa 2
    Pipeline := str "p"
    Metadata := { VMDK := str "v", GuestID := str "g" } }

end buildkite

namespace vsphere

/-- A datacenter object resolved by the finder. -/
structure Datacenter where
  name : Str
deriving DecidableEq, Repr

/-- A finder scoped to one datacenter (`find.Finder` after `SetDatacenter`). -/
structure Finder where
  datacenter : Datacenter
deriving DecidableEq, Repr

/-- A folder object; only its inventory path is consumed by the source. -/
structure Folder where
  inventoryPath : Str
deriving DecidableEq, Repr

/-- A cluster compute resource. -/
structure Cluster where
  path : Str
deriving DecidableEq, Repr

/-- A resource pool of a cluster. -/
structure ResourcePool where
  name : Str
deriving DecidableEq, Repr

/-- A network object. -/
structure Network where
  name : Str
deriving DecidableEq, Repr

/-- An ethernet card backing produced from a network. -/
structure EthernetBacking where
  network : Str
deriving DecidableEq, Repr

/-- A datastore object; only its name is consumed by the source. -/
structure Datastore where
  name : Str
deriving DecidableEq, Repr

/-- Model of `VirtualMachineCreationParams` from the source.  `GuestInfo` is the
entries of the Go map as a list of key/value pairs. -/
structure VirtualMachineCreationParams where
  BuildkiteAgentToken : Str
  ClusterPath : Str
  VirtualMachinePath : Str
  DatastoreName : Str
  GuestID : Str
  MemoryMB : Int
  Name : Str
  NetworkLabel : Str
  NumCPUs : Int
  NumCoresPerSocket : Int
  SrcDiskDataStore : Str
  SrcDiskPath : Str
  GuestInfo : List (Str × Str)
deriving DecidableEq, Repr

/-- The virtual hardware devices the source constructs.  A disk records the
index, within the device list it was created against, of the controller it
is attached to. -/
inductive VirtualDevice where
  | ethernet (backing : EthernetBacking) (addressType : Str)
  | scsiController
  | disk (controllerIndex : Nat) (datastore : Datastore) (fileName : Str)
      (thinProvisioned : Bool) (diskMode : Str)
  | usbController (autoConnectDevices : Bool) (ehciEnabled : Bool)
deriving DecidableEq, Repr

/-- Model of `types.VirtualEthernetCardMacTypeGenerated`. -/
def generatedAddressType : Str := str "generated"

/-- One entry of a `DeviceChange` list (`types.VirtualDeviceConfigSpec`). -/
structure VirtualDeviceConfigSpec where
  operation : Str
  device : VirtualDevice
deriving DecidableEq, Repr

/-- One extra-configuration entry (`types.OptionValue`). -/
structure OptionValue where
  key : Str
  value : Str
deriving DecidableEq, Repr

/-- Model of `types.VirtualMachineFileInfo`; only `VmPathName` is set by the source. -/
structure VirtualMachineFileInfo where
  vmPathName : Str
deriving DecidableEq, Repr

/-- Model of `types.VirtualMachineConfigSpec`, restricted to the fields the source
sets. -/
structure VirtualMachineConfigSpec where
  deviceChange : List VirtualDeviceConfigSpec
  extraConfig : List OptionValue
  files : VirtualMachineFileInfo
  guestId : Str
  memoryMB : Int
  name : Str
  nestedHVEnabled : Bool
  numCPUs : Int
  numCoresPerSocket : Int
  virtualICH7MPresent : Bool
  virtualSMCPresent : Bool
deriving DecidableEq, Repr

/-- A handle to a virtual machine, as resolved after creation. -/
structure VirtualMachine where
  name : Str
deriving DecidableEq, Repr

/-- Errors surfaced by the vsphere module.  Each constructor stands for one
distinct failure site of the source. -/
inductive VErr where
  | datacenterNotLoaded
  | defaultDatacenterNotFound
  | foldersFailed
  | clusterNotFound
  | resourcePoolNotFound
  | networkNotFound
  | backingInfoFailed
  | datastoreNotFound
  | scsiControllerNotFound
  | createVMFailed
  | taskFailed
  | virtualMachineNotFound
deriving DecidableEq, Repr

/-- The cluster topology the control plane answers lookups from.  A `none`
result models the corresponding call returning an error. -/
structure Topology where
  defaultDatacenter : Option Datacenter
  folders : Datacenter → Option Folder
  cluster : Str → Option Cluster
  resourcePool : Cluster → Option ResourcePool
  network : Str → Option Network
  ethernetCardBackingInfo : Network → Option EthernetBacking
  datastore : Str → Option Datastore
  createVMTask : Option Unit
  taskWait : Option Unit
  virtualMachine : Str → Option Str

/-- The session-cached values of `Session` in the source.  The client and
context fields carry no information the claims depend on. -/
structure Session where
  datacenter : Option Datacenter
  finder : Option Finder
deriving DecidableEq, Repr

/-- A freshly connected session: no datacenter or finder cached yet. -/
def newSession : Session := { datacenter := none, finder := none }

/-- Model of `Session.getFinder`: return the cached finder if present; otherwise
resolve the default datacenter (propagating its failure without caching
anything), scope a finder to it, cache both, and return the finder. -/
def getFinder (topo : Topology) (s : Session) : Except VErr Finder × Session :=
  match s.finder with
  | some f => (.ok f, s)
  | none =>
    match topo.defaultDatacenter with
    | none => (.error .defaultDatacenterNotFound, s)
    | some dc =>
      (.ok { datacenter := dc },
       { s with datacenter := some dc, finder := some { datacenter := dc } })

/-- Model of `Session.vmFolder`: error when no datacenter is loaded, otherwise the
VM folder of the datacenter. -/
def vmFolder (topo : Topology) (s : Session) : Except VErr Folder :=
  match s.datacenter with
  | none => .error .datacenterNotLoaded
  | some dc =>
    match topo.folders dc with
    | none => .error .foldersFailed
    | some f => .ok f

/-- Model of `addEthernet`: resolve the network whose path matches `*` ++ label,
obtain its card backing, and append a generated-address ethernet card. -/
def addEthernet (devices : List VirtualDevice) (topo : Topology) (s : Session)
    (label : Str) : Except VErr (List VirtualDevice) × Session :=
  match getFinder topo s with
  | (.error e, s1) => (.error e, s1)
  | (.ok _finder, s1) =>
    match topo.network ('*' :: label) with
    | none => (.error .networkNotFound, s1)
    | some network =>
      match topo.ethernetCardBackingInfo network with
      | none => (.error .backingInfoFailed, s1)
      | some backing =>
        (.ok (devices ++ [.ethernet backing generatedAddressType]), s1)

/-- Model of `addSCSI`: append a SCSI controller. -/
def addSCSI (devices : List VirtualDevice) : Except VErr (List VirtualDevice) :=
  .ok (devices ++ [.scsiController])

/-- Whether a device is a SCSI disk controller. -/
def isSCSIController : VirtualDevice → Bool
  | .scsiController => true
  | _ => false

/-- Model of `devices.FindDiskController("scsi")`: the index of the first SCSI
controller in the device list, `none` when there is none. -/
def findDiskController : List VirtualDevice → Option Nat
  | [] => none
  | d :: rest =>
    if isSCSIController d then some 0
    else (findDiskController rest).map (· + 1)

/-- Model of `datastore.Path(p)`: the datastore-qualified file path `[name] p`. -/
def datastorePath (ds : Datastore) (p : Str) : Str :=
  '[' :: ds.name ++ ']' :: ' ' :: p

/-- Model of `devices.CreateDisk`: a disk attached to the given controller, backed by
the given file on the given datastore, before the two explicit backing
assignments that follow. -/
def createDisk (controllerIndex : Nat) (ds : Datastore) (fileName : Str) : VirtualDevice :=
  .disk controllerIndex ds fileName false (str "persistent")

/-- Assignment `backing.ThinProvisioned = b` on a disk device. -/
def setThinProvisioned : VirtualDevice → Bool → VirtualDevice
  | .disk c ds f _ m, b => .disk c ds f b m
  | d, _ => d

/-- Assignment `backing.DiskMode = m` on a disk device. -/
def setDiskMode : VirtualDevice → Str → VirtualDevice
  | .disk c ds f b _, m => .disk c ds f b m
  | d, _ => d

/-- Model of `addDisk`: resolve the source datastore, look up the SCSI controller in
the device list so far, and append a disk attached to it, thin-provisioned
and in `independent_nonpersistent` mode. -/
def addDisk (devices : List VirtualDevice) (topo : Topology) (s : Session)
    (params : VirtualMachineCreationParams) :
    Except VErr (List VirtualDevice) × Session :=
  match getFinder topo s with
  | (.error e, s1) => (.error e, s1)
  | (.ok _finder, s1) =>
    match topo.datastore params.SrcDiskDataStore with
    | none => (.error .datastoreNotFound, s1)
    | some diskDatastore =>
      match findDiskController devices with
      | none => (.error .scsiControllerNotFound, s1)
      | some controllerIndex =>
        let disk := createDisk controllerIndex diskDatastore
          (datastorePath diskDatastore params.SrcDiskPath)
        let disk := setDiskMode (setThinProvisioned disk true)
          (str "independent_nonpersistent")
        (.ok (devices ++ [disk]), s1)

/-- Model of `addUSB`: append a USB controller with auto-connect and EHCI enabled. -/
def addUSB (devices : List VirtualDevice) : Except VErr (List VirtualDevice) :=
  .ok (devices ++ [.usbController true true])

/-- Model of `devices.ConfigSpec(add)`: one add-operation device change per device,
in list order. -/
def configSpecAdd (devices : List VirtualDevice) : List VirtualDeviceConfigSpec :=
  devices.map (fun d => { operation := str "add", device := d })

/-- The extra-configuration list built by `createConfigSpec`: the three
fixed `guestinfo.vmkite-*` entries, one `guestinfo.`-prefixed entry per
`GuestInfo` pair, and the fixed NIC PCI-slot entry. -/
def buildExtraConfig (params : VirtualMachineCreationParams) : List OptionValue :=
  [{ key := str "guestinfo.vmkite-buildkite-agent-token", value := params.BuildkiteAgentToken },
   { key := str "guestinfo.vmkite-name", value := params.Name },
   { key := str "guestinfo.vmkite-vmdk", value := params.SrcDiskPath }]
  ++ params.GuestInfo.map (fun kv => { key := str "guestinfo." ++ kv.1, value := kv.2 })
  ++ [{ key := str "ethernet0.pciSlotNumber", value := str "32" }]

/-- Model of `Session.createConfigSpec`: build the device list ethernet → SCSI →
disk → USB, convert it to add-operations, attach the extra configuration,
resolve the target datastore for file placement, and fill in the scalar
fields and fixed platform flags. -/
def createConfigSpec (topo : Topology) (s : Session)
    (params : VirtualMachineCreationParams) :
    Except VErr VirtualMachineConfigSpec × Session :=
  match addEthernet [] topo s params.NetworkLabel with
  | (.error e, s1) => (.error e, s1)
  | (.ok devices1, s1) =>
    match addSCSI devices1 with
    | .error e => (.error e, s1)
    | .ok devices2 =>
      match addDisk devices2 topo s1 params with
      | (.error e, s2) => (.error e, s2)
      | (.ok devices3, s2) =>
        match addUSB devices3 with
        | .error e => (.error e, s2)
        | .ok devices4 =>
          match getFinder topo s2 with
          | (.error e, s3) => (.error e, s3)
          | (.ok _finder, s3) =>
            match topo.datastore params.DatastoreName with
            | none => (.error .datastoreNotFound, s3)
            | some ds =>
              (.ok { deviceChange := configSpecAdd devices4
                     extraConfig := buildExtraConfig params
                     files := { vmPathName := '[' :: ds.name ++ [']'] }
                     guestId := params.GuestID
                     memoryMB := params.MemoryMB
                     name := params.Name
                     nestedHVEnabled := true
                     numCPUs := params.NumCPUs
                     numCoresPerSocket := params.NumCoresPerSocket
                     virtualICH7MPresent := true
                     virtualSMCPresent := true }, s3)

/-- Model of `Session.VirtualMachine`: resolve a VM handle by inventory path through
the finder. -/
def virtualMachineByPath (topo : Topology) (s : Session) (path : Str) :
    Except VErr VirtualMachine × Session :=
  match getFinder topo s with
  | (.error e, s1) => (.error e, s1)
  | (.ok _finder, s1) =>
    match topo.virtualMachine path with
    | none => (.error .virtualMachineNotFound, s1)
    | some name => (.ok { name := name }, s1)

/-- Model of `Session.CreateVM`: finder, VM folder, cluster, resource pool, config
spec, creation task submission and wait, then a fresh lookup of the created
machine by folder path and name. -/
def CreateVM (topo : Topology) (s : Session)
    (params : VirtualMachineCreationParams) :
    Except VErr VirtualMachine × Session :=
  match getFinder topo s with
  | (.error e, s1) => (.error e, s1)
  | (.ok _finder, s1) =>
    match vmFolder topo s1 with
    | .error e => (.error e, s1)
    | .ok folder =>
      match topo.cluster params.ClusterPath with
      | none => (.error .clusterNotFound, s1)
      | some cluster =>
        match topo.resourcePool cluster with
        | none => (.error .resourcePoolNotFound, s1)
        | some _resourcePool =>
          match createConfigSpec topo s1 params with
          | (.error e, s2) => (.error e, s2)
          | (.ok _configSpec, s2) =>
            match topo.createVMTask with
            | none => (.error .createVMFailed, s2)
            | some _ =>
              match topo.taskWait with
              | none => (.error .taskFailed, s2)
              | some _ =>
                virtualMachineByPath topo s2 (folder.inventoryPath ++ '/' :: params.Name)

/-- The fault classes of a failed control-plane call: a SOAP fault carrying
a vim fault, or any other error. -/
inductive VimFault where
  | notAuthenticated
  | otherFault
deriving DecidableEq, Repr

/-- An error observed by the keepalive probe. -/
inductive ProbeErr where
  | soapFault (fault : VimFault)
  | nonSoapError
deriving DecidableEq, Repr

/-- Model of `isNotAuthenticated`: true exactly for a SOAP fault whose vim fault is
`NotAuthenticated`. -/
def isNotAuthenticated (err : ProbeErr) : Bool :=
  match err with
  | .soapFault .notAuthenticated => true
  | _ => false

/-- The observable outcome of one keepalive probe firing: the error it
returns to the keepalive handler and whether it re-issued login. -/
structure KeepAliveOutcome where
  returnedError : Option ProbeErr
  reLoginAttempted : Bool
deriving DecidableEq, Repr

/-- The keepalive probe callback installed by `connect`: on probe success
return nil; on a failure classified as not-authenticated re-issue login
(logging either outcome) and return nil; on any other failure log and
return nil. -/
def keepAliveProbe (probeResult : Option ProbeErr) (reLoginResult : Option ProbeErr) :
    KeepAliveOutcome :=
  match probeResult with
  | none => { returnedError := none, reLoginAttempted := false }
  | some err =>
    if isNotAuthenticated err then
      match reLoginResult with
      | some _ => { returnedError := none, reLoginAttempted := true }
      | none => { returnedError := none, reLoginAttempted := true }
    else
      { returnedError := none, reLoginAttempted := false }

/-- A concrete topology on which every lookup succeeds. -/
def topo1 : Topology :=
  { defaultDatacenter := some { name := str "dc1" }
    folders := fun _ => some { inventoryPath := str "/dc1/vm" }
    cluster := fun _ => some { path := str "/dc1/host/cl1" }
    resourcePool := fun _ => some { name := str "rp" }
    network := fun _ => some { name := str "net" }
    ethernetCardBackingInfo := fun _ => some { network := str "net" }
    datastore := fun n => some { name := n }
    createVMTask := some ()
    taskWait := some ()
    virtualMachine := fun _ => some (str "vm1") }

/-- Concrete creation parameters for witnesses. -/
def params1 : VirtualMachineCreationParams :=
  { BuildkiteAgentToken := str "tok"
    ClusterPath := str "/dc1/host/cl1"
    VirtualMachinePath := str "/dc1/vm"
    DatastoreName := str "datastore1"
    GuestID := str "darwin19_64Guest"
    MemoryMB := 4096
    Name := str "vmkite-1"
    NetworkLabel := str "dvPortGroup"
    NumCPUs := 4
    NumCoresPerSocket := 1
    SrcDiskDataStore := str "datastore2"
    SrcDiskPath := str "vmkite/base.vmdk"
    GuestInfo := [(str "foo", str "bar")] }

/-- The session state after the first successful `getFinder` on `topo1`. -/
def sessionCached : Session :=
  { datacenter := some { name := str "dc1" }
    finder := some { datacenter := { name := str "dc1" } } }

/-- The config spec `createConfigSpec` produces on the concrete fixtures. -/
def cs1 : VirtualMachineConfigSpec :=
  { deviceChange := configSpecAdd
      [.ethernet { network := str "net" } generatedAddressType,
       .scsiController,
       .disk 1 { name := str "datastore2" } (str "[datastore2] vmkite/base.vmdk")
         true (str "independent_nonpersistent"),
       .usbController true true]
    extraConfig := buildExtraConfig params1
    files := { vmPathName := str "[datastore1]" }
    guestId := str "darwin19_64Guest"
    memoryMB := 4096
    name := str "vmkite-1"
    nestedHVEnabled := true
    numCPUs := 4
    numCoresPerSocket := 1
    virtualICH7MPresent := true
    virtualSMCPresent := true }

end vsphere

namespace buildkite

theorem vmdkKey_ne_guestidKey : vmdkKey ≠ guestidKey := by decide

theorem foldl_parseRule_VMDK (rules : List Str) : ∀ m : VmkiteMetadata,
    (rules.foldl parseRule m).VMDK =
      match lastMatch vmdkKey rules with
      | some v => v
      | none => m.VMDK := by
  induction rules with
  | nil => intro m; rfl
  | cons r rest ih =>
    intro m
    simp only [List.foldl_cons, ih, lastMatch]
    cases h1 : lastMatch vmdkKey rest with
    | some v => rfl
    | none =>
      simp only [parseRule]
      cases h2 : splitEq r with
      | none => rfl
      | some kv =>
        obtain ⟨k, v⟩ := kv
        by_cases hk : k = vmdkKey
        · simp [hk]
        · by_cases hg : k = guestidKey <;>
            simp [hk, hg, vmdkKey_ne_guestidKey.symm]

theorem foldl_parseRule_GuestID (rules : List Str) : ∀ m : VmkiteMetadata,
    (rules.foldl parseRule m).GuestID =
      match lastMatch guestidKey rules with
      | some v => v
      | none => m.GuestID := by
  induction rules with
  | nil => intro m; rfl
  | cons r rest ih =>
    intro m
    simp only [List.foldl_cons, ih, lastMatch]
    cases h1 : lastMatch guestidKey rest with
    | some v => rfl
    | none =>
      simp only [parseRule]
      cases h2 : splitEq r with
      | none => rfl
      | some kv =>
        obtain ⟨k, v⟩ := kv
        by_cases hk : k = vmdkKey
        · simp [hk, vmdkKey_ne_guestidKey]
        · by_cases hg : k = guestidKey <;>
            simp [hk, hg, vmdkKey_ne_guestidKey.symm]

/-- C3 (counterexample): on duplicate `vmkite-vmdk` rules the decoded value is
the value of the *last* matching rule, not the first: at
`["vmkite-vmdk=a", "vmkite-vmdk=b"]` the value of the first matching rule is `"a"`
but the decoded value is `"b"`. -/
theorem parse_duplicate_first_wins_ce :
    firstMatch vmdkKey [str "vmkite-vmdk=a", str "vmkite-vmdk=b"] = some (str "a")
    ∧ (parseAgentQueryRules [str "vmkite-vmdk=a", str "vmkite-vmdk=b"]).VMDK = str "b"
    ∧ str "b" ≠ str "a" := by
  decide

/-- C3 (amended): for every sequence of agent query rules, the decoded value
of a recognized key equals the value of the *last* rule in the sequence whose
key matches (empty when no rule matches); on duplicate keys the last
occurrence wins. -/
theorem parse_last_match_wins (rules : List Str) :
    (parseAgentQueryRules rules).VMDK = (lastMatch vmdkKey rules).getD []
    ∧ (parseAgentQueryRules rules).GuestID = (lastMatch guestidKey rules).getD [] := by
  constructor
  · rw [parseAgentQueryRules, foldl_parseRule_VMDK]
    cases lastMatch vmdkKey rules <;> rfl
  · rw [parseAgentQueryRules, foldl_parseRule_GuestID]
    cases lastMatch guestidKey rules <;> rfl

theorem splitEq_eq_none_of_not_mem (r : Str) (h : '=' ∉ r) : splitEq r = none := by
  induction r with
  | nil => rfl
  | cons c cs ih =>
    have hc : ¬ c = '=' := fun hc => h (hc ▸ List.mem_cons_self c cs)
    have hcs : '=' ∉ cs := fun hm => h (List.mem_cons_of_mem c hm)
    simp [splitEq, hc, ih hcs]

theorem splitEq_append (key v : Str) (h : '=' ∉ key) :
    splitEq (key ++ '=' :: v) = some (key, v) := by
  induction key with
  | nil => simp [splitEq]
  | cons c cs ih =>
    have hc : ¬ c = '=' := fun hc => h (hc ▸ List.mem_cons_self c cs)
    have hcs : '=' ∉ cs := fun hm => h (List.mem_cons_of_mem c hm)
    simp [splitEq, hc, ih hcs]

/-- C8: a rule splits only at its first `=` (the value may itself contain
`=`); a rule with no `=` leaves the metadata unchanged; a rule whose key is
neither `vmkite-vmdk` nor `vmkite-guestid` leaves the metadata unchanged. -/
theorem parse_rule_splitting :
    (∀ key v : Str, '=' ∉ key → splitEq (key ++ '=' :: v) = some (key, v))
    ∧ (∀ (r : Str) (m : VmkiteMetadata), '=' ∉ r → parseRule m r = m)
    ∧ (∀ (r : Str) (m : VmkiteMetadata) (k v : Str),
        splitEq r = some (k, v) → k ≠ vmdkKey → k ≠ guestidKey → parseRule m r = m) := by
  refine ⟨splitEq_append, ?_, ?_⟩
  · intro r m h
    simp [parseRule, splitEq_eq_none_of_not_mem r h]
  · intro r m k v hsplit hk hg
    simp [parseRule, hsplit, hk, hg]

/-- Witness for `parse_rule_splitting` at concrete rules. -/
theorem parse_rule_splitting_witness :
    splitEq (str "vmkite-vmdk" ++ '=' :: str "a=b") = some (str "vmkite-vmdk", str "a=b")
    ∧ parseRule VmkiteMetadata.empty (str "noequals") = VmkiteMetadata.empty
    ∧ parseRule VmkiteMetadata.empty (str "other=x") = VmkiteMetadata.empty :=
  ⟨parse_rule_splitting.1 (str "vmkite-vmdk") (str "a=b") (by decide),
   parse_rule_splitting.2.1 (str "noequals") VmkiteMetadata.empty (by decide),
   parse_rule_splitting.2.2 (str "other=x") VmkiteMetadata.empty
     (str "other") (str "x") (by decide) (by decide) (by decide)⟩

/-- C1: every job in the list returned by a successful `Session.VmkiteJobs()`
has both intent fields non-empty; a job whose decoded metadata lacks either
field never appears in the returned list. -/
theorem vmkiteJobs_complete_intent (builds : List Build) (j : VmkiteJob)
    (hj : j ∈ VmkiteJobs builds) :
    j.Metadata.VMDK ≠ [] ∧ j.Metadata.GuestID ≠ [] := by
  simp only [VmkiteJobs, List.mem_flatMap, List.mem_filterMap] at hj
  obtain ⟨build, _, job, _, h⟩ := hj
  split at h
  · next hc =>
    cases h
    exact ⟨hc.2, hc.1⟩
  · cases h

/-- Witness for `vmkiteJobs_complete_intent` at a concrete build list. -/
theorem vmkiteJobs_complete_intent_witness :
    job1 ∈ VmkiteJobs builds1 ∧ (job1.Metadata.VMDK ≠ [] ∧ job1.Metadata.GuestID ≠ []) :=
  ⟨by decide, vmkiteJobs_complete_intent builds1 job1 (by decide)⟩

/-- C4: given a successfully re-fetched build, `IsFinished` is `ok false`
when the first job with a matching ID is in state `scheduled` or `running`,
`ok true` when that job is in any other state, and `ok false` (no error)
when no job with a matching ID is present. -/
theorem isFinished_state_cases (build : Build) (job : VmkiteJob) :
    (∀ bj, build.jobs.find? (fun b => b.id == job.ID) = some bj →
      ((bj.state = str "scheduled" ∨ bj.state = str "running") →
        IsFinished (some build) job = .ok false)
      ∧ (bj.state ≠ str "scheduled" → bj.state ≠ str "running" →
        IsFinished (some build) job = .ok true))
    ∧ (build.jobs.find? (fun b => b.id == job.ID) = none →
        IsFinished (some build) job = .ok false) := by
  constructor
  · intro bj hfind
    constructor
    · intro hstate
      simp [IsFinished, hfind, hstate]
    · intro hs hr
      simp [IsFinished, hfind, hs, hr]
  · intro hfind
    simp [IsFinished, hfind]

/-- Witness for `isFinished_state_cases`: a matching job in state `passed`
yields `ok true`. -/
theorem isFinished_state_cases_witness : IsFinished (some build2) job2 = .ok true :=
  ((isFinished_state_cases build2 job2).1
    { id := str "j1", state := str "passed", agentQueryRules := [] }
    (by decide)).2 (by decide) (by decide)

end buildkite

namespace vsphere

/-- C7: the keepalive probe callback always returns nil to its caller, for
every probe outcome and every re-login outcome; it attempts re-login
exactly when the probe failure is classified as not-authenticated. -/
theorem keepAliveProbe_never_errors (probeResult reLoginResult : Option ProbeErr) :
    (keepAliveProbe probeResult reLoginResult).returnedError = none
    ∧ (keepAliveProbe probeResult reLoginResult).reLoginAttempted =
        (match probeResult with
         | none => false
         | some err => isNotAuthenticated err) := by
  cases probeResult with
  | none => exact ⟨rfl, rfl⟩
  | some err =>
    by_cases h : isNotAuthenticated err <;>
      cases reLoginResult <;> simp [keepAliveProbe, h]

/-- C9: `getFinder` is lazily-initializing and idempotent.  With nothing
cached, a resolvable default datacenter is cached together with a finder
scoped to it; an unresolvable one yields an error and leaves the session
unchanged; and once a call has returned a finder, every further call
returns the same finder with the session unchanged. -/
theorem getFinder_lazy_idempotent (topo : Topology) (s : Session) :
    (∀ dc, s.finder = none → topo.defaultDatacenter = some dc →
      getFinder topo s =
        (.ok { datacenter := dc },
         { s with datacenter := some dc, finder := some { datacenter := dc } }))
    ∧ (s.finder = none → topo.defaultDatacenter = none →
        getFinder topo s = (.error .defaultDatacenterNotFound, s))
    ∧ (∀ f s', getFinder topo s = (.ok f, s') → getFinder topo s' = (.ok f, s')) := by
  refine ⟨?_, ?_, ?_⟩
  · intro dc hf hdc
    simp [getFinder, hf, hdc]
  · intro hf hdc
    simp [getFinder, hf, hdc]
  · intro f s' h
    cases hf : s.finder with
    | some f0 =>
      simp only [getFinder, hf, Prod.mk.injEq, Except.ok.injEq] at h
      obtain ⟨rfl, rfl⟩ := h
      simp [getFinder, hf]
    | none =>
      cases hdc : topo.defaultDatacenter with
      | none => simp [getFinder, hf, hdc] at h
      | some dc =>
        simp only [getFinder, hf, hdc, Prod.mk.injEq, Except.ok.injEq] at h
        obtain ⟨rfl, rfl⟩ := h
        simp [getFinder]

/-- Witness for `getFinder_lazy_idempotent`: on the concrete topology the
first call caches datacenter and finder, and a second call returns the same
finder on the unchanged session. -/
theorem getFinder_lazy_idempotent_witness :
    getFinder topo1 newSession =
      (.ok { datacenter := { name := str "dc1" } },
       { datacenter := some { name := str "dc1" }
         finder := some { datacenter := { name := str "dc1" } } })
    ∧ getFinder topo1
        { datacenter := some { name := str "dc1" }
          finder := some { datacenter := { name := str "dc1" } } } =
      (.ok { datacenter := { name := str "dc1" } },
       { datacenter := some { name := str "dc1" }
         finder := some { datacenter := { name := str "dc1" } } }) :=
  ⟨(getFinder_lazy_idempotent topo1 newSession).1 { name := str "dc1" } rfl rfl,
   (getFinder_lazy_idempotent topo1 newSession).2.2
     { datacenter := { name := str "dc1" } }
     { datacenter := some { name := str "dc1" }
       finder := some { datacenter := { name := str "dc1" } } }
     ((getFinder_lazy_idempotent topo1 newSession).1 { name := str "dc1" } rfl rfl)⟩

theorem guestinfo_key_ne_pciSlot (k : Str) :
    str "guestinfo." ++ k ≠ str "ethernet0.pciSlotNumber" := by
  intro h
  have h1 : (str "guestinfo." ++ k).head? = (str "ethernet0.pciSlotNumber").head? :=
    congrArg List.head? h
  have h2 : (str "guestinfo." ++ k).head? = some 'g' := rfl
  rw [h2] at h1
  exact absurd h1 (by decide)

/-- C5: for every creation parameter record, the extra-configuration list
contains the three fixed `guestinfo.vmkite-*` entries, one
`guestinfo.`-prefixed entry per `GuestInfo` pair, and exactly one
`ethernet0.pciSlotNumber` entry, for a total of `4 + |GuestInfo|`. -/
theorem buildExtraConfig_shape (params : VirtualMachineCreationParams) :
    (buildExtraConfig params).length = 4 + params.GuestInfo.length
    ∧ ({ key := str "guestinfo.vmkite-buildkite-agent-token",
         value := params.BuildkiteAgentToken } : OptionValue) ∈ buildExtraConfig params
    ∧ ({ key := str "guestinfo.vmkite-name",
         value := params.Name } : OptionValue) ∈ buildExtraConfig params
    ∧ ({ key := str "guestinfo.vmkite-vmdk",
         value := params.SrcDiskPath } : OptionValue) ∈ buildExtraConfig params
    ∧ (∀ kv ∈ params.GuestInfo,
        ({ key := str "guestinfo." ++ kv.1, value := kv.2 } : OptionValue)
          ∈ buildExtraConfig params)
    ∧ (buildExtraConfig params).countP
        (fun ov => ov.key == str "ethernet0.pciSlotNumber") = 1 := by
  refine ⟨?_, ?_, ?_, ?_, ?_, ?_⟩
  · simp only [buildExtraConfig, List.length_append, List.length_map,
      List.length_cons, List.length_nil]
    omega
  · simp [buildExtraConfig]
  · simp [buildExtraConfig]
  · simp [buildExtraConfig]
  · intro kv hkv
    simp only [buildExtraConfig, List.mem_append]
    exact Or.inl (Or.inr (List.mem_map_of_mem _ hkv))
  · have hmap : ((params.GuestInfo.map (fun kv =>
        ({ key := str "guestinfo." ++ kv.1, value := kv.2 } : OptionValue))).countP
        (fun ov => ov.key == str "ethernet0.pciSlotNumber")) = 0 := by
      apply List.countP_eq_zero.mpr
      intro ov hov
      simp only [List.mem_map] at hov
      obtain ⟨kv, _, rfl⟩ := hov
      simpa using guestinfo_key_ne_pciSlot kv.1
    simp [buildExtraConfig, List.countP_cons, List.countP_append, hmap,
      (by decide : ((str "guestinfo.vmkite-buildkite-agent-token" ==
        str "ethernet0.pciSlotNumber") : Bool) = false),
      (by decide : ((str "guestinfo.vmkite-name" ==
        str "ethernet0.pciSlotNumber") : Bool) = false),
      (by decide : ((str "guestinfo.vmkite-vmdk" ==
        str "ethernet0.pciSlotNumber") : Bool) = false)]

/-- Witness for `buildExtraConfig_shape` at the concrete parameters: length
`4 + 1` and membership of the mapped `GuestInfo` entry. -/
theorem buildExtraConfig_shape_witness :
    (buildExtraConfig params1).length = 4 + params1.GuestInfo.length
    ∧ ({ key := str "guestinfo." ++ str "foo", value := str "bar" } : OptionValue)
        ∈ buildExtraConfig params1 :=
  ⟨(buildExtraConfig_shape params1).1,
   (buildExtraConfig_shape params1).2.2.2.2.1 (str "foo", str "bar") (by decide)⟩

theorem isSCSIController_iff (d : VirtualDevice) :
    isSCSIController d = true ↔ d = .scsiController := by
  cases d <;> simp [isSCSIController]

theorem findDiskController_spec (l : List VirtualDevice) (i : Nat)
    (h : findDiskController l = some i) :
    l[i]? = some VirtualDevice.scsiController := by
  induction l generalizing i with
  | nil => simp [findDiskController] at h
  | cons d rest ih =>
    by_cases hd : isSCSIController d = true
    · rw [findDiskController, if_pos hd] at h
      obtain rfl : (0 : Nat) = i := by injection h
      have hdev : d = .scsiController := (isSCSIController_iff d).mp hd
      simp [hdev]
    · rw [findDiskController, if_neg hd] at h
      rw [Option.map_eq_some'] at h
      obtain ⟨j, hj, rfl⟩ := h
      simpa using ih j hj

theorem findDiskController_eq_none (l : List VirtualDevice)
    (h : VirtualDevice.scsiController ∉ l) : findDiskController l = none := by
  induction l with
  | nil => rfl
  | cons d rest ih =>
    have hd : ¬ isSCSIController d = true := fun hscsi =>
      h (((isSCSIController_iff d).mp hscsi) ▸ List.mem_cons_self d rest)
    have hrest : VirtualDevice.scsiController ∉ rest := fun hm =>
      h (List.mem_cons_of_mem d hm)
    simp [findDiskController, hd, ih hrest]

theorem addDisk_ok (devices : List VirtualDevice) (topo : Topology) (s : Session)
    (params : VirtualMachineCreationParams) (devices' : List VirtualDevice) (s' : Session)
    (h : addDisk devices topo s params = (.ok devices', s')) :
    ∃ idx ds, findDiskController devices = some idx
      ∧ devices[idx]? = some VirtualDevice.scsiController
      ∧ topo.datastore params.SrcDiskDataStore = some ds
      ∧ devices' = devices ++
          [VirtualDevice.disk idx ds (datastorePath ds params.SrcDiskPath) true
            (str "independent_nonpersistent")] := by
  unfold addDisk at h
  cases hg : getFinder topo s with
  | mk r s1 =>
    rw [hg] at h
    cases r with
    | error e => simp at h
    | ok f =>
      cases hds : topo.datastore params.SrcDiskDataStore with
      | none => simp [hds] at h
      | some ds =>
        cases hfc : findDiskController devices with
        | none => simp [hds, hfc] at h
        | some idx =>
          simp only [hds, hfc, createDisk, setThinProvisioned, setDiskMode,
            Prod.mk.injEq, Except.ok.injEq] at h
          exact ⟨idx, ds, rfl, findDiskController_spec devices idx hfc, rfl, h.1.symm⟩

/-- C6: `addDisk` on a device list with no SCSI controller returns an error
rather than a disk lacking a controller reference; on success the appended
disk references the first SCSI controller of the list it was built
against. -/
theorem addDisk_requires_controller (devices : List VirtualDevice) (topo : Topology)
    (s : Session) (params : VirtualMachineCreationParams) :
    (VirtualDevice.scsiController ∉ devices →
      ∃ e s', addDisk devices topo s params = (.error e, s'))
    ∧ (∀ devices' s', addDisk devices topo s params = (.ok devices', s') →
        ∃ idx ds, findDiskController devices = some idx
          ∧ devices[idx]? = some VirtualDevice.scsiController
          ∧ topo.datastore params.SrcDiskDataStore = some ds
          ∧ devices' = devices ++
              [VirtualDevice.disk idx ds (datastorePath ds params.SrcDiskPath) true
                (str "independent_nonpersistent")]) := by
  constructor
  · intro hmem
    cases hg : getFinder topo s with
    | mk r s1 =>
      cases r with
      | error e => exact ⟨e, s1, by unfold addDisk; rw [hg]⟩
      | ok f =>
        cases hds : topo.datastore params.SrcDiskDataStore with
        | none =>
          exact ⟨.datastoreNotFound, s1, by unfold addDisk; rw [hg]; simp [hds]⟩
        | some ds =>
          refine ⟨.scsiControllerNotFound, s1, ?_⟩
          unfold addDisk
          rw [hg]
          simp [hds, findDiskController_eq_none devices hmem]
  · exact fun devices' s' h => addDisk_ok devices topo s params devices' s' h

/-- Witness for `addDisk_requires_controller`: with no controller in the
device list the call errors; with a lone SCSI controller it succeeds and the
disk references index 0. -/
theorem addDisk_requires_controller_witness :
    (∃ e s', addDisk [] topo1 newSession params1 = (.error e, s'))
    ∧ (∃ idx ds, findDiskController [VirtualDevice.scsiController] = some idx
        ∧ [VirtualDevice.scsiController][idx]? = some VirtualDevice.scsiController
        ∧ topo1.datastore params1.SrcDiskDataStore = some ds
        ∧ [VirtualDevice.scsiController,
            VirtualDevice.disk 0 { name := str "datastore2" }
              (str "[datastore2] vmkite/base.vmdk") true
              (str "independent_nonpersistent")] =
          [VirtualDevice.scsiController] ++
            [VirtualDevice.disk idx ds (datastorePath ds params1.SrcDiskPath) true
              (str "independent_nonpersistent")]) :=
  ⟨(addDisk_requires_controller [] topo1 newSession params1).1 (by decide),
   (addDisk_requires_controller [VirtualDevice.scsiController] topo1 newSession params1).2
     [VirtualDevice.scsiController,
      VirtualDevice.disk 0 { name := str "datastore2" }
        (str "[datastore2] vmkite/base.vmdk") true (str "independent_nonpersistent")]
     { datacenter := some { name := str "dc1" }
       finder := some { datacenter := { name := str "dc1" } } }
     rfl⟩

theorem addEthernet_ok (devices : List VirtualDevice) (topo : Topology) (s : Session)
    (label : Str) (devices' : List VirtualDevice) (s' : Session)
    (h : addEthernet devices topo s label = (.ok devices', s')) :
    ∃ backing, devices' = devices ++ [.ethernet backing generatedAddressType] := by
  unfold addEthernet at h
  cases hg : getFinder topo s with
  | mk r s1 =>
    rw [hg] at h
    cases r with
    | error e => simp at h
    | ok f =>
      cases hnw : topo.network ('*' :: label) with
      | none => simp [hnw] at h
      | some nw =>
        cases hb : topo.ethernetCardBackingInfo nw with
        | none => simp [hnw, hb] at h
        | some backing =>
          simp only [hnw, hb, Prod.mk.injEq, Except.ok.injEq] at h
          exact ⟨backing, h.1.symm⟩

/-- C2: whenever `createConfigSpec` succeeds, its device-change list holds
exactly one ethernet adapter, one SCSI controller, one disk and one USB
controller, in that order; the controller index of the disk is 1, the position of
the SCSI controller, and its backing is thin-provisioned in
`independent_nonpersistent` mode. -/
theorem createConfigSpec_device_list (topo : Topology) (s : Session)
    (params : VirtualMachineCreationParams) (cs : VirtualMachineConfigSpec) (s' : Session)
    (h : createConfigSpec topo s params = (.ok cs, s')) :
    ∃ backing ds,
      cs.deviceChange.map VirtualDeviceConfigSpec.device =
        [VirtualDevice.ethernet backing generatedAddressType,
         VirtualDevice.scsiController,
         VirtualDevice.disk 1 ds (datastorePath ds params.SrcDiskPath) true
           (str "independent_nonpersistent"),
         VirtualDevice.usbController true true]
      ∧ (cs.deviceChange.map VirtualDeviceConfigSpec.device)[1]? =
          some VirtualDevice.scsiController := by
  unfold createConfigSpec at h
  cases hae : addEthernet [] topo s params.NetworkLabel with
  | mk r1 s1 =>
    rw [hae] at h
    cases r1 with
    | error e => simp at h
    | ok devices1 =>
      obtain ⟨backing, hd1⟩ := addEthernet_ok [] topo s params.NetworkLabel devices1 s1 hae
      rw [List.nil_append] at hd1
      subst hd1
      simp only [addSCSI, List.cons_append, List.nil_append] at h
      cases had : addDisk [VirtualDevice.ethernet backing generatedAddressType,
          VirtualDevice.scsiController] topo s1 params with
      | mk r2 s2 =>
        rw [had] at h
        cases r2 with
        | error e => simp at h
        | ok devices3 =>
          obtain ⟨idx, ds, hfc, _, _, hd3⟩ :=
            addDisk_ok _ topo s1 params devices3 s2 had
          have hfc1 : findDiskController
              [VirtualDevice.ethernet backing generatedAddressType,
               VirtualDevice.scsiController] = some 1 := by
            simp [findDiskController, isSCSIController]
          rw [hfc1] at hfc
          obtain rfl : idx = 1 := (Option.some.inj hfc).symm
          subst hd3
          simp only [addUSB, List.cons_append, List.nil_append] at h
          cases hg2 : getFinder topo s2 with
          | mk r3 s3 =>
            rw [hg2] at h
            cases r3 with
            | error e => simp at h
            | ok f2 =>
              cases hds2 : topo.datastore params.DatastoreName with
              | none => simp [hds2] at h
              | some ds2 =>
                simp only [hds2, Prod.mk.injEq, Except.ok.injEq] at h
                obtain ⟨hcs, -⟩ := h
                subst hcs
                refine ⟨backing, ds, ?_, ?_⟩ <;>
                  simp [configSpecAdd]

/-- Witness for `createConfigSpec_device_list` at the concrete fixtures. -/
theorem createConfigSpec_device_list_witness :
    ∃ backing ds,
      cs1.deviceChange.map VirtualDeviceConfigSpec.device =
        [VirtualDevice.ethernet backing generatedAddressType,
         VirtualDevice.scsiController,
         VirtualDevice.disk 1 ds (datastorePath ds params1.SrcDiskPath) true
           (str "independent_nonpersistent"),
         VirtualDevice.usbController true true]
      ∧ (cs1.deviceChange.map VirtualDeviceConfigSpec.device)[1]? =
          some VirtualDevice.scsiController :=
  createConfigSpec_device_list topo1 newSession params1 cs1 sessionCached rfl

theorem getFinder_error_shape (topo : Topology) (s : Session) (e : VErr) (s' : Session)
    (h : getFinder topo s = (.error e, s')) :
    e = .defaultDatacenterNotFound ∧ s' = s := by
  cases hf : s.finder with
  | some f => simp [getFinder, hf] at h
  | none =>
    cases hdc : topo.defaultDatacenter with
    | none =>
      simp only [getFinder, hf, hdc, Prod.mk.injEq, Except.error.injEq] at h
      exact ⟨h.1.symm, h.2.symm⟩
    | some dc => simp [getFinder, hf, hdc] at h

theorem getFinder_ok_datacenter (topo : Topology) (s : Session) (f : Finder) (s' : Session)
    (hwf : s.finder.isSome → s.datacenter.isSome)
    (h : getFinder topo s = (.ok f, s')) : s'.datacenter.isSome := by
  cases hf : s.finder with
  | some f0 =>
    simp only [getFinder, hf, Prod.mk.injEq, Except.ok.injEq] at h
    obtain ⟨-, rfl⟩ := h
    exact hwf (by simp [hf])
  | none =>
    cases hdc : topo.defaultDatacenter with
    | none => simp [getFinder, hf, hdc] at h
    | some dc =>
      simp only [getFinder, hf, hdc, Prod.mk.injEq, Except.ok.injEq] at h
      obtain ⟨-, rfl⟩ := h
      simp

theorem vmFolder_some_dc (topo : Topology) (s : Session) (dc : Datacenter)
    (hdc : s.datacenter = some dc) : vmFolder topo s ≠ .error .datacenterNotLoaded := by
  cases hff : topo.folders dc <;> simp [vmFolder, hdc, hff]

theorem addEthernet_error_ne (devices : List VirtualDevice) (topo : Topology)
    (s : Session) (label : Str) (e : VErr) (s' : Session)
    (h : addEthernet devices topo s label = (.error e, s')) :
    e ≠ VErr.datacenterNotLoaded := by
  unfold addEthernet at h
  cases hg : getFinder topo s with
  | mk r s1 =>
    rw [hg] at h
    cases r with
    | error e0 =>
      simp only [Prod.mk.injEq, Except.error.injEq] at h
      obtain ⟨rfl, -⟩ := h
      have := (getFinder_error_shape topo s e0 s1 hg).1
      simp [this]
    | ok f =>
      cases hnw : topo.network ('*' :: label) with
      | none =>
        simp only [hnw, Prod.mk.injEq, Except.error.injEq] at h
        obtain ⟨rfl, -⟩ := h
        simp
      | some nw =>
        cases hb : topo.ethernetCardBackingInfo nw with
        | none =>
          simp only [hnw, hb, Prod.mk.injEq, Except.error.injEq] at h
          obtain ⟨rfl, -⟩ := h
          simp
        | some backing => simp [hnw, hb] at h

theorem addDisk_error_ne (devices : List VirtualDevice) (topo : Topology)
    (s : Session) (params : VirtualMachineCreationParams) (e : VErr) (s' : Session)
    (h : addDisk devices topo s params = (.error e, s')) :
    e ≠ VErr.datacenterNotLoaded := by
  unfold addDisk at h
  cases hg : getFinder topo s with
  | mk r s1 =>
    rw [hg] at h
    cases r with
    | error e0 =>
      simp only [Prod.mk.injEq, Except.error.injEq] at h
      obtain ⟨rfl, -⟩ := h
      have := (getFinder_error_shape topo s e0 s1 hg).1
      simp [this]
    | ok f =>
      cases hds : topo.datastore params.SrcDiskDataStore with
      | none =>
        simp only [hds, Prod.mk.injEq, Except.error.injEq] at h
        obtain ⟨rfl, -⟩ := h
        simp
      | some ds =>
        cases hfc : findDiskController devices with
        | none =>
          simp only [hds, hfc, Prod.mk.injEq, Except.error.injEq] at h
          obtain ⟨rfl, -⟩ := h
          simp
        | some idx => simp [hds, hfc] at h

theorem createConfigSpec_error_ne (topo : Topology) (s : Session)
    (params : VirtualMachineCreationParams) (e : VErr) (s' : Session)
    (h : createConfigSpec topo s params = (.error e, s')) :
    e ≠ VErr.datacenterNotLoaded := by
  unfold createConfigSpec at h
  cases hae : addEthernet [] topo s params.NetworkLabel with
  | mk r1 s1 =>
    rw [hae] at h
    cases r1 with
    | error e0 =>
      simp only [Prod.mk.injEq, Except.error.injEq] at h
      obtain ⟨rfl, -⟩ := h
      exact addEthernet_error_ne [] topo s params.NetworkLabel e0 s1 hae
    | ok devices1 =>
      simp only [addSCSI] at h
      cases had : addDisk (devices1 ++ [VirtualDevice.scsiController]) topo s1 params with
      | mk r2 s2 =>
        rw [had] at h
        cases r2 with
        | error e0 =>
          simp only [Prod.mk.injEq, Except.error.injEq] at h
          obtain ⟨rfl, -⟩ := h
          exact addDisk_error_ne _ topo s1 params e0 s2 had
        | ok devices3 =>
          simp only [addUSB] at h
          cases hg2 : getFinder topo s2 with
          | mk r3 s3 =>
            rw [hg2] at h
            cases r3 with
            | error e0 =>
              simp only [Prod.mk.injEq, Except.error.injEq] at h
              obtain ⟨rfl, -⟩ := h
              have := (getFinder_error_shape topo s2 e0 s3 hg2).1
              simp [this]
            | ok f2 =>
              cases hds2 : topo.datastore params.DatastoreName with
              | none =>
                simp only [hds2, Prod.mk.injEq, Except.error.injEq] at h
                obtain ⟨rfl, -⟩ := h
                simp
              | some ds2 => simp [hds2] at h

theorem virtualMachineByPath_error_ne (topo : Topology) (s : Session) (path : Str)
    (e : VErr) (s' : Session)
    (h : virtualMachineByPath topo s path = (.error e, s')) :
    e ≠ VErr.datacenterNotLoaded := by
  unfold virtualMachineByPath at h
  cases hg : getFinder topo s with
  | mk r s1 =>
    rw [hg] at h
    cases r with
    | error e0 =>
      simp only [Prod.mk.injEq, Except.error.injEq] at h
      obtain ⟨rfl, -⟩ := h
      have := (getFinder_error_shape topo s e0 s1 hg).1
      simp [this]
    | ok f =>
      cases hvm : topo.virtualMachine path with
      | none =>
        simp only [hvm, Prod.mk.injEq, Except.error.injEq] at h
        obtain ⟨rfl, -⟩ := h
        simp
      | some name => simp [hvm] at h

/-- C10: within `CreateVM`, the "datacenter not loaded" branch of `vmFolder`
is unreachable: after any successful `getFinder` call the cached
datacenter of the session is populated, so `vmFolder` cannot fail with that error, and no
execution of `CreateVM` on a well-formed session ever yields it. -/
theorem createVM_dcNotLoaded_unreachable (topo : Topology) (s : Session)
    (params : VirtualMachineCreationParams)
    (hwf : s.finder.isSome → s.datacenter.isSome) :
    (∀ f s1, getFinder topo s = (.ok f, s1) →
      vmFolder topo s1 ≠ .error .datacenterNotLoaded)
    ∧ (CreateVM topo s params).1 ≠ Except.error VErr.datacenterNotLoaded := by
  constructor
  · intro f s1 hg
    obtain ⟨dc, hdc⟩ := Option.isSome_iff_exists.mp
      (getFinder_ok_datacenter topo s f s1 hwf hg)
    exact vmFolder_some_dc topo s1 dc hdc
  · unfold CreateVM
    cases hg : getFinder topo s with
    | mk r s1 =>
      cases r with
      | error e =>
        have := (getFinder_error_shape topo s e s1 hg).1
        simp [this]
      | ok f =>
        obtain ⟨dc, hdc⟩ := Option.isSome_iff_exists.mp
          (getFinder_ok_datacenter topo s f s1 hwf hg)
        cases hvf : vmFolder topo s1 with
        | error e2 =>
          have hne : e2 ≠ VErr.datacenterNotLoaded := by
            intro he
            exact vmFolder_some_dc topo s1 dc hdc (he ▸ hvf)
          simp [hvf, hne]
        | ok folder =>
          cases hcl : topo.cluster params.ClusterPath with
          | none => simp [hvf, hcl]
          | some cluster =>
            cases hrp : topo.resourcePool cluster with
            | none => simp [hvf, hcl, hrp]
            | some rp =>
              cases hccs : createConfigSpec topo s1 params with
              | mk r2 s2 =>
                cases r2 with
                | error e3 =>
                  have hne := createConfigSpec_error_ne topo s1 params e3 s2 hccs
                  simp [hvf, hcl, hrp, hccs, hne]
                | ok cs =>
                  cases hct : topo.createVMTask with
                  | none => simp [hvf, hcl, hrp, hccs, hct]
                  | some u1 =>
                    cases htw : topo.taskWait with
                    | none => simp [hvf, hcl, hrp, hccs, hct, htw]
                    | some u2 =>
                      cases hvm : virtualMachineByPath topo s2
                          (folder.inventoryPath ++ '/' :: params.Name) with
                      | mk r4 s4 =>
                        cases r4 with
                        | error e4 =>
                          have hne := virtualMachineByPath_error_ne topo s2
                            (folder.inventoryPath ++ '/' :: params.Name) e4 s4 hvm
                          simp [hvf, hcl, hrp, hccs, hct, htw, hvm, hne]
                        | ok vm =>
                          simp [hvf, hcl, hrp, hccs, hct, htw, hvm]

/-- Witness for `createVM_dcNotLoaded_unreachable` on the concrete
fixtures. -/
theorem createVM_dcNotLoaded_unreachable_witness :
    (CreateVM topo1 newSession params1).1 ≠ Except.error VErr.datacenterNotLoaded :=
  (createVM_dcNotLoaded_unreachable topo1 newSession params1 (by decide)).2

end vsphere
